import Mathlib

/-!
A shallow embedding of the per-connection session controller of
`src/server.js` — a Node/socket.io server that drives a headless browser
through puppeteer/CDP and streams back screenshot frames — together with
theorems settling the specification's claims about it.

Modelling conventions:
* The per-connection closure variables `browser`, `page`, `cdpClient`,
  `streaming`, `streamTimeout` of the `io.on("connection", ...)` handler
  become the fields of `ConnState`; each engine handle is an `Option Nat`
  (the `Nat` is an opaque handle identity).
* Calls into the rendering engine are recorded on an `EngineOp` trace and
  events emitted to the client on an `OutEvent` trace, so that acquire /
  release ordering and emission can be stated as list properties.
* JavaScript truthiness of command payload fields is modelled explicitly:
  a missing (`none`) or empty URL is falsy, a missing or zero number is
  falsy (`jsOr`); negative numbers are truthy, exactly as in `width || DEFAULT_WIDTH`.
* Two granularities of execution are modelled.  Whole-handler replays
  (`startSession`, `runStarts`, `resizeHandler`, `dispatchInput`) run each
  handler to completion, which is faithful exactly when every await of a
  handler resolves before the next channel event is dispatched.  Because
  Node resumes other events while a handler is suspended at an `await`,
  claims about simultaneous executions are settled on small-step replays
  (`startStep` / `runTwoStarts`, `destroyStep` / `runTwoDestroys`) that
  cut each async handler body into the atomic segments between its await
  points and interleave two in-flight bodies under an explicit schedule;
  for the capture tick the single relevant await-point mutation is
  threaded as an explicit `interrupt` function instead.
* `console.log` / `console.error` side effects are not modelled; engine
  call failures that the source swallows are represented by the branch
  structure of the embedding, with the swallowing visible as "no event,
  no state change".
-/

set_option autoImplicit false

/-- A viewport as passed to `page.setViewport({width, height})`.  Dimensions
are `Int` because the resize handler forwards negative client input
unchanged. -/
structure Viewport where
  width : Int
  height : Int
  deriving DecidableEq, Repr

/-- One call into the rendering engine (puppeteer / CDP), as recorded on the
instrumentation trace. -/
inductive EngineOp
  | launch (browserId : Nat)
  | newPage (pageId : Nat)
  | createCDP (cdpId : Nat)
  | detach (cdpId : Nat)
  | closePage (pageId : Nat)
  | closeBrowser (browserId : Nat)
  | setViewport (width height : Int)
  | goto (url : String)
  | screenshot
  | mouseClick (x y : Int)
  | mouseMove (x y : Int)
  | mouseWheel (deltaX deltaY : Int)
  | setPageScaleFactor (scale : Int)
  | keyboardPress (key : String)
  | keyboardType (text : String)
  deriving DecidableEq, Repr

/-- An event emitted to the client over the socket (`socket.emit(...)`). -/
inductive OutEvent
  | error (msg : String)
  | sessionStarted
  | frame (payload : String)
  | loadingStart
  | loadingEnd
  deriving DecidableEq, Repr

/-- The connection-scoped mutable state of `io.on("connection", ...)`:
the closure variables `browser`, `page`, `cdpClient`, `streaming`,
`streamTimeout`, plus the engine-side viewport of the open page (meaningful
only while `page` is live) and whether the socket is still connected
(`socket.connected`, read by the capture tick's precondition). -/
structure ConnState where
  browser : Option Nat
  page : Option Nat
  cdpClient : Option Nat
  streaming : Bool
  streamTimeout : Bool
  socketConnected : Bool
  viewport : Option Viewport
  deriving DecidableEq, Repr

/-- The state right after a client connects: all handles `null`, not
streaming, no pending capture schedule. -/
def initialConn : ConnState :=
  { browser := none, page := none, cdpClient := none, streaming := false,
    streamTimeout := false, socketConnected := true, viewport := none }

/-- `stopStreaming` (src/server.js:38-44): set `streaming = false` and clear
any pending `setTimeout` capture schedule. -/
def stopStreaming (s : ConnState) : ConnState :=
  { s with streaming := false, streamTimeout := false }

/-- `cleanupBrowser` (src/server.js:47-64): detach the CDP session, close the
page, close the browser — each guarded by a null check and each release
failure swallowed (`try { ... } catch (e) {}`), so the handle is nulled
whether or not the engine call succeeds.  Returns the new state and the
engine operations issued. -/
def cleanupBrowser (s : ConnState) : ConnState × List EngineOp :=
  let (s1, ops1) :=
    match s.cdpClient with
    | some c => ({ s with cdpClient := none }, [EngineOp.detach c])
    | none => (s, ([] : List EngineOp))
  let (s2, ops2) :=
    match s1.page with
    | some p => ({ s1 with page := none }, [EngineOp.closePage p])
    | none => (s1, ([] : List EngineOp))
  let (s3, ops3) :=
    match s2.browser with
    | some b => ({ s2 with browser := none }, [EngineOp.closeBrowser b])
    | none => (s2, ([] : List EngineOp))
  (s3, ops1 ++ ops2 ++ ops3)

theorem cleanupBrowser_handles_null (s : ConnState) :
    (cleanupBrowser s).1.cdpClient = none ∧ (cleanupBrowser s).1.page = none ∧
    (cleanupBrowser s).1.browser = none := by
  rcases s with ⟨b, p, c, st, sto, sc, v⟩
  cases b <;> cases p <;> cases c <;> simp [cleanupBrowser]

theorem cleanupBrowser_fst (s : ConnState) :
    (cleanupBrowser s).1 = { s with cdpClient := none, page := none, browser := none } := by
  rcases s with ⟨b, p, c, st, sto, sc, v⟩
  cases b <;> cases p <;> cases c <;> simp [cleanupBrowser]

theorem cleanupBrowser_noop (s : ConnState) (hb : s.browser = none)
    (hp : s.page = none) (hc : s.cdpClient = none) :
    cleanupBrowser s = (s, []) := by
  rcases s with ⟨b, p, c, st, sto, sc, v⟩
  simp only at hb hp hc
  subst hb; subst hp; subst hc
  simp [cleanupBrowser]

/-- C10: `cleanupBrowser` is idempotent: one completed call nulls
`cdpClient`, `page` and `browser`, and a second call issues no engine
operation (no detach, no close) and leaves the state unchanged. -/
theorem cleanupBrowser_idempotent (s : ConnState) :
    (cleanupBrowser s).1.cdpClient = none ∧
    (cleanupBrowser s).1.page = none ∧
    (cleanupBrowser s).1.browser = none ∧
    cleanupBrowser (cleanupBrowser s).1 = ((cleanupBrowser s).1, []) := by
  obtain ⟨hc, hp, hb⟩ := cleanupBrowser_handles_null s
  exact ⟨hc, hp, hb, cleanupBrowser_noop _ hb hp hc⟩

/-- JavaScript `v || d` for a numeric payload field: `undefined` (`none`)
and `0` are falsy and fall back to `d`; every other number — including
negative ones — is truthy and kept. -/
def jsOr (v : Option Int) (d : Int) : Int :=
  match v with
  | none => d
  | some x => if x = 0 then d else x

/-- JavaScript `!url` for a string payload field: `undefined` (`none`) and
the empty string are falsy. -/
def jsFalsyStr (v : Option String) : Bool :=
  match v with
  | none => true
  | some u => u == ""

/-- `DEFAULT_WIDTH` (src/server.js:23). -/
def DEFAULT_WIDTH : Int := 1280

/-- `DEFAULT_HEIGHT` (src/server.js:24). -/
def DEFAULT_HEIGHT : Int := 720

/-- The environment of one `start-session` attempt: which fresh handle
identities the engine would hand out, and whether the two awaited engine
calls that the handler's `catch` guards against — `puppeteer.launch` and the
initial `page.goto` — succeed, with the underlying error message when not. -/
structure StartEnv where
  browserId : Nat
  pageId : Nat
  cdpId : Nat
  launchOk : Bool
  launchErr : String
  gotoOk : Bool
  gotoErr : String
  deriving DecidableEq, Repr

/-- The `start-session` handler (src/server.js:66-203).  Validates the URL
(`if (!url) return after one "error" event`), then
awaits `stopStreaming()` and `cleanupBrowser()`, launches a browser, opens a
page, creates a CDP session, sets the viewport from `width || DEFAULT_WIDTH`
/ `height || DEFAULT_HEIGHT`, navigates, and on success sets
`streaming = true` and emits `session-started`.  Any failure of launch or
navigation lands in the `catch`: one `error` event whose message is
`"Failed to start session: " + cause`, then `stopStreaming()` and
`cleanupBrowser()` again.  Returns (state, events emitted, engine ops
issued). -/
def startSession (env : StartEnv) (s : ConnState) (url : Option String)
    (width height : Option Int) : ConnState × List OutEvent × List EngineOp :=
  if jsFalsyStr url then (s, [OutEvent.error "No URL provided"], [])
  else
    let s0 := stopStreaming s
    let (s1, cleanOps) := cleanupBrowser s0
    if env.launchOk = false then
      let s2 := stopStreaming s1
      let (s3, cleanOps2) := cleanupBrowser s2
      (s3, [OutEvent.error ("Failed to start session: " ++ env.launchErr)],
       cleanOps ++ cleanOps2)
    else
      let s2 := { s1 with browser := some env.browserId }
      let s3 := { s2 with page := some env.pageId }
      let s4 := { s3 with cdpClient := some env.cdpId }
      let vw := jsOr width DEFAULT_WIDTH
      let vh := jsOr height DEFAULT_HEIGHT
      let s5 := { s4 with viewport := some ⟨vw, vh⟩ }
      let acqOps := [EngineOp.launch env.browserId, EngineOp.newPage env.pageId,
                     EngineOp.createCDP env.cdpId, EngineOp.setViewport vw vh,
                     EngineOp.goto (url.getD "")]
      if env.gotoOk = false then
        let s6 := stopStreaming s5
        let (s7, cleanOps2) := cleanupBrowser s6
        (s7, [OutEvent.error ("Failed to start session: " ++ env.gotoErr)],
         cleanOps ++ acqOps ++ cleanOps2)
      else
        ({ s5 with streaming := true }, [OutEvent.sessionStarted],
         cleanOps ++ acqOps)

/-- The `resize` handler (src/server.js:241-251): no-op without a page;
otherwise issues `page.setViewport({width: width || DEFAULT_WIDTH, height:
height || DEFAULT_HEIGHT})`.  `setViewportOk` says whether the engine call
succeeds; a failure is caught and logged, leaving the viewport unchanged. -/
def resizeHandler (setViewportOk : Bool) (s : ConnState)
    (width height : Option Int) : ConnState × List EngineOp :=
  if s.page.isNone then (s, [])
  else
    let w := jsOr width DEFAULT_WIDTH
    let h := jsOr height DEFAULT_HEIGHT
    if setViewportOk then
      ({ s with viewport := some ⟨w, h⟩ }, [EngineOp.setViewport w h])
    else
      (s, [EngineOp.setViewport w h])

/-- The `type` field of an `input-event` payload; `other` stands for any
string that is none of the six recognised cases of the `switch`. -/
inductive InputType
  | click
  | mousemove
  | scroll
  | zoom
  | keydown
  | typeText
  | other (name : String)
  deriving DecidableEq, Repr

/-- An `input-event` payload `{type, x?, y?, deltaX?, deltaY?, scale?, key?,
text?}`. -/
structure InputEvent where
  type : InputType
  x : Int := 0
  y : Int := 0
  deltaX : Option Int := none
  deltaY : Option Int := none
  scale : Int := 1
  key : String := ""
  text : String := ""
  deriving DecidableEq, Repr

/-- The `input-event` handler (src/server.js:205-239): returns at once
without a page; otherwise dispatches by `event.type` — unrecognised types
hit no `case` and perform no engine call.  The whole `switch` sits in a
`try/catch` whose `catch` only logs, and the `zoom` case has its own inner
`catch`, so an engine failure (`dispatchFails`) emits nothing, raises
nothing and touches no connection state.  Result: (state, events, engine
ops issued, whether an error escaped to the caller). -/
def dispatchInput (dispatchFails : Bool) (s : ConnState) (e : InputEvent) :
    ConnState × List OutEvent × List EngineOp × Bool :=
  if s.page.isNone then (s, [], [], false)
  else
    let attempt : List EngineOp :=
      match e.type with
      | InputType.click => [EngineOp.mouseClick e.x e.y]
      | InputType.mousemove => [EngineOp.mouseMove e.x e.y]
      | InputType.scroll => [EngineOp.mouseWheel (jsOr e.deltaX 0) (jsOr e.deltaY 0)]
      | InputType.zoom =>
          match s.cdpClient with
          | some _ => [EngineOp.setPageScaleFactor e.scale]
          | none => []
      | InputType.keydown => [EngineOp.keyboardPress e.key]
      | InputType.typeText => [EngineOp.keyboardType e.text]
      | InputType.other _ => []
    if dispatchFails then
      (s, [], attempt, false)
    else
      (s, [], attempt, false)

/-- Effect of one engine operation on the set of live browser handles:
`puppeteer.launch` brings a handle to life, `browser.close()` releases it,
everything else leaves the set alone. -/
def opAlive (a : List Nat) : EngineOp → List Nat
  | EngineOp.launch b => a ++ [b]
  | EngineOp.closeBrowser b => a.erase b
  | _ => a

/-- The live browser handles after replaying an engine-operation trace. -/
def aliveAfter (a : List Nat) : List EngineOp → List Nat
  | [] => a
  | op :: t => aliveAfter (opAlive a op) t

/-- Along a trace starting from live set `a`, every intermediate live set —
i.e. the live set at every instant, after every prefix of the trace — has at
most one element. -/
def aliveBounded : List Nat → List EngineOp → Prop
  | a, [] => a.length ≤ 1
  | a, op :: t => a.length ≤ 1 ∧ aliveBounded (opAlive a op) t

theorem aliveAfter_append (a : List Nat) (t1 t2 : List EngineOp) :
    aliveAfter a (t1 ++ t2) = aliveAfter (aliveAfter a t1) t2 := by
  induction t1 generalizing a with
  | nil => rfl
  | cons op t ih => simp [aliveAfter, ih]

theorem aliveBounded_len (a : List Nat) (t : List EngineOp)
    (h : aliveBounded a t) : a.length ≤ 1 := by
  cases t with
  | nil => exact h
  | cons op t => exact h.1

theorem aliveBounded_append (a : List Nat) (t1 t2 : List EngineOp)
    (h1 : aliveBounded a t1) (h2 : aliveBounded (aliveAfter a t1) t2) :
    aliveBounded a (t1 ++ t2) := by
  induction t1 generalizing a with
  | nil => exact h2
  | cons op t ih => exact ⟨h1.1, ih _ h1.2 h2⟩

theorem aliveBounded_take (a : List Nat) (t : List EngineOp)
    (h : aliveBounded a t) : ∀ n, (aliveAfter a (t.take n)).length ≤ 1 := by
  induction t generalizing a with
  | nil => intro n; simpa [aliveAfter] using h
  | cons op t ih =>
    intro n
    cases n with
    | zero => simpa [aliveAfter] using aliveBounded_len _ _ h
    | succ n => simpa [aliveAfter] using ih _ h.2 n

/-- One `start-session` command as received over the channel, together with
the engine environment of its attempt. -/
structure StartCmd where
  env : StartEnv
  url : Option String
  width : Option Int
  height : Option Int

/-- Run a sequence of `start-session` commands on one connection with each
handler execution running to completion before the next command is
processed (no two handlers ever in flight at the same time), collecting
the full engine-operation trace.  This replay covers exactly the
non-overlapping executions; when a second `start-session` arrives while a
handler is suspended at an await, the interleaved replay `runTwoStarts`
below applies instead, and the single-handle bound fails there. -/
def runStarts (s : ConnState) : List StartCmd → ConnState × List EngineOp
  | [] => (s, [])
  | c :: cs =>
      let r := startSession c.env s c.url c.width c.height
      let rest := runStarts r.1 cs
      (rest.1, r.2.2 ++ rest.2)

theorem startSession_alive (env : StartEnv) (s : ConnState)
    (url : Option String) (w h : Option Int) :
    aliveBounded s.browser.toList (startSession env s url w h).2.2 ∧
    aliveAfter s.browser.toList (startSession env s url w h).2.2 =
      (startSession env s url w h).1.browser.toList := by
  rcases s with ⟨b, p, c, st, sto, sc, v⟩
  rcases env with ⟨bId, pId, cId, lOk, lErr, gOk, gErr⟩
  cases hf : jsFalsyStr url <;> cases lOk <;> cases gOk <;>
    cases b <;> cases p <;> cases c <;>
      simp [startSession, stopStreaming, cleanupBrowser, aliveBounded,
        aliveAfter, opAlive, hf]

theorem runStarts_alive (cs : List StartCmd) (s : ConnState) :
    aliveBounded s.browser.toList (runStarts s cs).2 ∧
    aliveAfter s.browser.toList (runStarts s cs).2 =
      (runStarts s cs).1.browser.toList := by
  induction cs generalizing s with
  | nil =>
    refine ⟨?_, rfl⟩
    cases hb : s.browser <;> simp [runStarts, aliveBounded, hb]
  | cons cmd cs ih =>
    obtain ⟨h1, h2⟩ := startSession_alive cmd.env s cmd.url cmd.width cmd.height
    obtain ⟨h3, h4⟩ := ih (startSession cmd.env s cmd.url cmd.width cmd.height).1
    constructor
    · simpa [runStarts] using aliveBounded_append _ _ _ h1 (h2 ▸ h3)
    · simpa [runStarts, aliveAfter_append, h2] using h4

/-- C1 (amended): for every sequence of `start-session` commands on one
connection in which each handler execution completes before the next
command is processed, at most one browser handle is alive at any instant:
after every prefix (`take n`) of the engine-operation trace the set of
live browser handles has at most one element — the old handle is fully
released (CDP detached, page closed, browser closed) before a new launch
brings the next one to life.  The restriction is necessary: when a second
`start-session` arrives while the first is suspended at
`await puppeteer.launch`, the two handler executions interleave and two
browsers end up alive at once (see the interleaved replay below). -/
theorem startSession_single_engine_handle (cs : List StartCmd) (n : Nat) :
    (aliveAfter [] (((runStarts initialConn cs).2).take n)).length ≤ 1 := by
  exact aliveBounded_take _ _ (runStarts_alive cs initialConn).1 n

/-- The precondition of a capture tick (src/server.js:168):
`if (!streaming || !page || !browser || !socket.connected) return;`. -/
def tickPre (s : ConnState) : Bool :=
  s.streaming && s.page.isSome && s.browser.isSome && s.socketConnected

/-- The opaque base64 JPEG payload produced by `page.screenshot`. -/
def framePayload : String := "base64-jpeg"

/-- One capture tick, `captureFrame` (src/server.js:167-186): check the
precondition, await `page.screenshot` — `interrupt` is whatever state
mutation completes during that await (`id` when nothing does) — then emit
the frame and arm `streamTimeout = setTimeout(captureFrame, ...)`; a
screenshot failure is caught, sets `streaming = false` and returns without
emitting or rescheduling.  Note the source re-checks nothing after the
await: emission and rescheduling run against the interrupted state.
Returns (state, events emitted, whether the next tick was scheduled). -/
def captureTick (interrupt : ConnState → ConnState) (shotOk : Bool)
    (s : ConnState) : ConnState × List OutEvent × Bool :=
  if tickPre s = false then (s, [], false)
  else
    let s1 := interrupt s
    if shotOk then
      ({ s1 with streamTimeout := true }, [OutEvent.frame framePayload], true)
    else
      ({ s1 with streaming := false }, [], false)

/-- The instrumentation markers of a capture-loop run, in execution order:
a tick starts, then either returns at the precondition (`tickSkipped`),
fails its screenshot (`captureFailed`), or emits its frame
(`frameEmitted`) and arms the next tick (`nextScheduled`). -/
inductive TickEvent
  | tickStart
  | frameEmitted
  | captureFailed
  | tickSkipped
  | nextScheduled
  deriving DecidableEq, Repr

/-- A run of the capture loop with no interleaved mutation, driven by the
list of screenshot outcomes (`shots`), replaying the
self-rescheduling of `captureFrame`: the next tick exists only because the previous one armed
`setTimeout(captureFrame, FRAME_INTERVAL_MS)` after emitting — there is no
periodic timer.  Returns the final state and the ordered marker trace. -/
def captureLoop : List Bool → ConnState → ConnState × List TickEvent
  | [], s => (s, [])
  | ok :: rest, s =>
    if tickPre s = false then (s, [TickEvent.tickStart, TickEvent.tickSkipped])
    else if ok then
      let r := captureLoop rest { s with streamTimeout := true }
      (r.1, TickEvent.tickStart :: TickEvent.frameEmitted ::
            TickEvent.nextScheduled :: r.2)
    else
      ({ s with streaming := false },
       [TickEvent.tickStart, TickEvent.captureFailed])

/-- `gated f t`: replaying trace `t` with `f` ticks currently in flight,
a tick only ever starts when none is in flight, and every in-flight tick
runs to its own completing marker before the next starts. -/
def gated : Nat → List TickEvent → Prop
  | f, [] => f = f
  | f, TickEvent.tickStart :: t => f = 0 ∧ gated 1 t
  | f, TickEvent.frameEmitted :: t => f = 1 ∧ gated 1 t
  | f, TickEvent.nextScheduled :: t => f = 1 ∧ gated 0 t
  | f, TickEvent.captureFailed :: t => f = 1 ∧ gated 0 t
  | f, TickEvent.tickSkipped :: t => f = 1 ∧ gated 0 t

/-- Every `nextScheduled` marker immediately follows the `frameEmitted` of
its own tick: scheduling happens only once the frame is out. -/
def schedAfterEmit : List TickEvent → Prop
  | [] => True
  | TickEvent.frameEmitted :: TickEvent.nextScheduled :: t => schedAfterEmit t
  | TickEvent.nextScheduled :: _ => False
  | _ :: t => schedAfterEmit t

/-- Once `captureFailed` appears on a capture-loop trace, it is the last
marker: the loop neither emits nor schedules anything afterwards. -/
def failureTerminal : List TickEvent → Prop
  | [] => True
  | TickEvent.captureFailed :: t => t = []
  | _ :: t => failureTerminal t

/-- Number of `frame` events in an emitted-event list. -/
def numFrames (es : List OutEvent) : Nat :=
  es.countP fun e => match e with | OutEvent.frame _ => true | _ => false

theorem captureLoop_not_streaming (shots : List Bool) (s : ConnState)
    (h : s.streaming = false) :
    (captureLoop shots s).1 = s ∧
    TickEvent.frameEmitted ∉ (captureLoop shots s).2 := by
  cases shots with
  | nil => simp [captureLoop]
  | cons ok rest =>
    have hp : tickPre s = false := by simp [tickPre, h]
    simp [captureLoop, hp]

/-- C3: every run of the capture loop is completion-gated: a tick starts
only when no tick is in flight (`gated 0` — no two ticks of the session
ever run concurrently), and the next tick is scheduled only immediately
after the current tick's frame has been emitted (`schedAfterEmit`; a
failed tick schedules nothing at all).  The schedule is the
`setTimeout` the tick itself arms after emitting — not a periodic timer. -/
theorem captureLoop_completion_gated (shots : List Bool) (s : ConnState) :
    gated 0 (captureLoop shots s).2 ∧ schedAfterEmit (captureLoop shots s).2 := by
  induction shots generalizing s with
  | nil => simp [captureLoop, gated, schedAfterEmit]
  | cons ok rest ih =>
    cases hp : tickPre s with
    | false => simp [captureLoop, hp, gated, schedAfterEmit]
    | true =>
      cases ok with
      | false => simp [captureLoop, hp, gated, schedAfterEmit]
      | true =>
        obtain ⟨h1, h2⟩ := ih { s with streamTimeout := true }
        simp [captureLoop, hp, gated, schedAfterEmit, h1, h2]

/-- C7: a screenshot failure is terminal for the loop: nothing follows the
`captureFailed` marker on the trace (no frame for that tick, no
reschedule), and when a failure occurred the loop ends with
`streaming = false`, so any further ticks that might run before a new
`start-session` emit no frame. -/
theorem captureFailure_ends_loop (shots more : List Bool) (s : ConnState) :
    failureTerminal (captureLoop shots s).2 ∧
    (TickEvent.captureFailed ∈ (captureLoop shots s).2 →
      (captureLoop shots s).1.streaming = false ∧
      TickEvent.frameEmitted ∉ (captureLoop more (captureLoop shots s).1).2) := by
  induction shots generalizing s with
  | nil => simp [captureLoop, failureTerminal]
  | cons ok rest ih =>
    cases hp : tickPre s with
    | false =>
      constructor
      · simp [captureLoop, hp, failureTerminal]
      · intro hmem
        simp [captureLoop, hp] at hmem
    | true =>
      cases ok with
      | false =>
        have hred : captureLoop (false :: rest) s =
            ({ s with streaming := false },
             [TickEvent.tickStart, TickEvent.captureFailed]) := by
          simp [captureLoop, hp]
        constructor
        · simp [hred, failureTerminal]
        · intro _
          rw [hred]
          exact ⟨rfl, (captureLoop_not_streaming more _ rfl).2⟩
      | true =>
        obtain ⟨h1, h2⟩ := ih { s with streamTimeout := true }
        constructor
        · simpa [captureLoop, hp, failureTerminal] using h1
        · intro hmem
          have hmem' : TickEvent.captureFailed ∈
              (captureLoop rest { s with streamTimeout := true }).2 := by
            simpa [captureLoop, hp] using hmem
          simpa [captureLoop, hp] using h2 hmem'

/-- A connection state in the middle of a healthy streaming session:
handles live, `streaming` set, a capture schedule pending, socket still
connected, page viewport 800×600. -/
def streamingConn : ConnState :=
  { browser := some 0, page := some 1, cdpClient := some 2, streaming := true,
    streamTimeout := true, socketConnected := true,
    viewport := some ⟨800, 600⟩ }

/-- C2 counterexample: a tick is in flight (past its precondition check,
inside `await page.screenshot`) when `stopStreaming` runs to completion —
`streaming` is false and the pending schedule cleared — yet the tick still
emits its stale frame afterwards, because src/server.js:177 emits without
re-checking `streaming` after the await.  This falsifies "no subsequent
frame event is emitted after the stop completes". -/
theorem staleFrame_after_stop_cex :
    (stopStreaming streamingConn).streaming = false ∧
    (stopStreaming streamingConn).streamTimeout = false ∧
    (captureTick stopStreaming true streamingConn).2.1 =
      [OutEvent.frame framePayload] ∧
    (captureTick stopStreaming true streamingConn).2.1 ≠ [] := by
  refine ⟨rfl, rfl, rfl, ?_⟩
  decide

/-- C2 (amended): a tick whose precondition check runs after the stop emits
nothing and does not reschedule; only the single tick already past its
check when the stop lands may still emit one stale frame, and its scheduled
successor — checking after the stop — emits nothing, so at most one frame
event follows a completed stop. -/
theorem stop_gating_amended (s u : ConnState) (ok ok2 : Bool)
    (hu : u.streaming = false) :
    captureTick id ok u = (u, [], false) ∧
    numFrames ((captureTick stopStreaming ok s).2.1 ++
      (captureTick id ok2 (captureTick stopStreaming ok s).1).2.1) ≤ 1 := by
  have hpu : tickPre u = false := by simp [tickPre, hu]
  refine ⟨by simp [captureTick, hpu], ?_⟩
  cases hp : tickPre s with
  | false => simp [captureTick, hp, numFrames]
  | true =>
    cases ok with
    | true =>
      have h1 : captureTick stopStreaming true s =
          ({ stopStreaming s with streamTimeout := true },
           [OutEvent.frame framePayload], true) := by
        simp [captureTick, hp]
      have hp2 : tickPre { stopStreaming s with streamTimeout := true } = false := by
        simp [tickPre, stopStreaming]
      rw [h1]
      simp [captureTick, hp2, numFrames]
    | false =>
      have h1 : captureTick stopStreaming false s =
          ({ stopStreaming s with streaming := false }, [], false) := by
        simp [captureTick, hp]
      have hp2 : tickPre { stopStreaming s with streaming := false } = false := by
        simp [tickPre]
      rw [h1]
      simp [captureTick, hp2, numFrames]

theorem stop_gating_amended_witness :
    (stopStreaming streamingConn).streaming = false ∧
    (captureTick id true (stopStreaming streamingConn) =
      (stopStreaming streamingConn, [], false) ∧
     numFrames ((captureTick stopStreaming true streamingConn).2.1 ++
       (captureTick id true (captureTick stopStreaming true streamingConn).1).2.1) ≤ 1) :=
  ⟨rfl, stop_gating_amended streamingConn (stopStreaming streamingConn) true true rfl⟩

/-- C4 counterexample: with the page's viewport at 800×600, `resize(0,0)`
does not leave the viewport unchanged — `width || DEFAULT_WIDTH` maps the
falsy `0` to the defaults, so the viewport becomes 1280×720, never the
retained current value. -/
theorem resize_zero_cex :
    streamingConn.viewport = some ⟨800, 600⟩ ∧
    (resizeHandler true streamingConn (some 0) (some 0)).1.viewport =
      some ⟨1280, 720⟩ ∧
    (resizeHandler true streamingConn (some 0) (some 0)).1.viewport ≠
      streamingConn.viewport := by
  refine ⟨rfl, by decide, by decide⟩

/-- C4 (amended): with an active page, `resize` never consults the current
viewport: it issues `page.setViewport` with exactly
`width || DEFAULT_WIDTH` × `height || DEFAULT_HEIGHT`, so zero or missing
dimensions fall back to the defaults 1280×720 and negative dimensions are
forwarded to the engine unchanged; on engine success the viewport becomes
that value. -/
theorem resize_falls_back_to_defaults (ok : Bool) (s : ConnState)
    (w h : Option Int) (hp : s.page.isSome = true) :
    (resizeHandler ok s w h).2 =
      [EngineOp.setViewport (jsOr w DEFAULT_WIDTH) (jsOr h DEFAULT_HEIGHT)] ∧
    (ok = true → (resizeHandler ok s w h).1.viewport =
      some ⟨jsOr w DEFAULT_WIDTH, jsOr h DEFAULT_HEIGHT⟩) := by
  cases hq : s.page with
  | none => simp [hq] at hp
  | some p =>
    have hn : s.page.isNone = false := by simp [hq]
    cases ok with
    | true => simp [resizeHandler, hn]
    | false => simp [resizeHandler, hn]

theorem resize_falls_back_witness :
    streamingConn.page.isSome = true ∧
    ((resizeHandler true streamingConn (some (-1)) (some 5)).2 =
      [EngineOp.setViewport (jsOr (some (-1)) DEFAULT_WIDTH)
        (jsOr (some 5) DEFAULT_HEIGHT)] ∧
     (true = true → (resizeHandler true streamingConn (some (-1)) (some 5)).1.viewport =
      some ⟨jsOr (some (-1)) DEFAULT_WIDTH, jsOr (some 5) DEFAULT_HEIGHT⟩)) :=
  ⟨rfl, resize_falls_back_to_defaults true streamingConn (some (-1)) (some 5) rfl⟩

/-- C5: a `start-session` whose `url` is missing or empty is rejected up
front: the state — including any running stream and the engine handles —
is returned unchanged, exactly one `error` event is emitted, and no engine
operation is issued. -/
theorem emptyUrl_rejected (env : StartEnv) (s : ConnState)
    (url : Option String) (w h : Option Int) (hu : jsFalsyStr url = true) :
    startSession env s url w h = (s, [OutEvent.error "No URL provided"], []) := by
  simp [startSession, hu]

/-- A start environment in which every engine call succeeds. -/
def sampleEnv : StartEnv :=
  { browserId := 10, pageId := 11, cdpId := 12, launchOk := true,
    launchErr := "", gotoOk := true, gotoErr := "" }

theorem emptyUrl_rejected_witness :
    jsFalsyStr (some "") = true ∧
    startSession sampleEnv streamingConn (some "") none none =
      (streamingConn, [OutEvent.error "No URL provided"], []) :=
  ⟨rfl, emptyUrl_rejected sampleEnv streamingConn (some "") none none rfl⟩

/-- C6: when the engine launch or the initial navigation of a
`start-session` attempt fails, exactly one `error` event is emitted, its
message carries the underlying cause after `"Failed to start session: "`,
and the session ends in a clean state: all engine handles released to
`null` and streaming stopped. -/
theorem failedStart_clean_state (env : StartEnv) (s : ConnState)
    (url : Option String) (w h : Option Int) (hu : jsFalsyStr url = false)
    (hf : env.launchOk = false ∨ env.gotoOk = false) :
    (startSession env s url w h).2.1 =
      [OutEvent.error ("Failed to start session: " ++
        (if env.launchOk = true then env.gotoErr else env.launchErr))] ∧
    (startSession env s url w h).1.browser = none ∧
    (startSession env s url w h).1.page = none ∧
    (startSession env s url w h).1.cdpClient = none ∧
    (startSession env s url w h).1.streaming = false := by
  rcases env with ⟨bId, pId, cId, lOk, lErr, gOk, gErr⟩
  rcases s with ⟨b, p, c, st, sto, sc, v⟩
  cases lOk with
  | false =>
    cases b <;> cases p <;> cases c <;>
      simp [startSession, hu, stopStreaming, cleanupBrowser]
  | true =>
    cases gOk with
    | true => simp at hf
    | false =>
      cases b <;> cases p <;> cases c <;>
        simp [startSession, hu, stopStreaming, cleanupBrowser]

/-- A start environment in which `puppeteer.launch` itself fails. -/
def failEnv : StartEnv :=
  { browserId := 20, pageId := 21, cdpId := 22, launchOk := false,
    launchErr := "spawn chrome ENOENT", gotoOk := true, gotoErr := "" }

theorem failedStart_clean_state_witness :
    jsFalsyStr (some "https://example.com") = false ∧
    (failEnv.launchOk = false ∨ failEnv.gotoOk = false) ∧
    ((startSession failEnv streamingConn (some "https://example.com") none none).2.1 =
      [OutEvent.error ("Failed to start session: " ++
        (if failEnv.launchOk = true then failEnv.gotoErr else failEnv.launchErr))] ∧
     (startSession failEnv streamingConn (some "https://example.com") none none).1.browser = none ∧
     (startSession failEnv streamingConn (some "https://example.com") none none).1.page = none ∧
     (startSession failEnv streamingConn (some "https://example.com") none none).1.cdpClient = none ∧
     (startSession failEnv streamingConn (some "https://example.com") none none).1.streaming = false) :=
  ⟨by decide, Or.inl rfl,
   failedStart_clean_state failEnv streamingConn (some "https://example.com")
     none none (by decide) (Or.inl rfl)⟩

/-- C8: `dispatchInput` never changes connection state, never emits an
event and never raises to its caller — whether the engine dispatch fails
(the surrounding `try/catch` swallows it) or not — and an unrecognised
`type` additionally performs no engine call at all. -/
theorem dispatchInput_swallows (fails : Bool) (s : ConnState) (e : InputEvent) :
    (dispatchInput fails s e).1 = s ∧
    (dispatchInput fails s e).2.1 = [] ∧
    (dispatchInput fails s e).2.2.2 = false ∧
    (∀ name, e.type = InputType.other name →
      (dispatchInput fails s e).2.2.1 = []) := by
  cases hq : s.page with
  | none =>
    have hn : s.page.isNone = true := by simp [hq]
    simp [dispatchInput, hn]
  | some p =>
    have hn : s.page.isNone = false := by simp [hq]
    refine ⟨?_, ?_, ?_, ?_⟩
    · cases fails <;> simp [dispatchInput, hn]
    · cases fails <;> simp [dispatchInput, hn]
    · cases fails <;> simp [dispatchInput, hn]
    · intro name hname
      cases fails <;> simp [dispatchInput, hn, hname]

theorem dispatchInput_swallows_witness :
    (dispatchInput true streamingConn { type := InputType.other "wheel" }).2.2.1 = [] :=
  (dispatchInput_swallows true streamingConn
    { type := InputType.other "wheel" }).2.2.2 "wheel" rfl

theorem captureFailure_ends_loop_witness :
    TickEvent.captureFailed ∈ (captureLoop [false] streamingConn).2 ∧
    ((captureLoop [false] streamingConn).1.streaming = false ∧
     TickEvent.frameEmitted ∉
       (captureLoop [true] (captureLoop [false] streamingConn).1).2) :=
  ⟨by decide,
   (captureFailure_ends_loop [false] [true] streamingConn).2 (by decide)⟩

/-- Program counter of one in-flight `start-session` handler execution,
naming the atomic segment the handler will run when next resumed.  The
source body (src/server.js:66-203) suspends at each `await`: after the
validation + `stopStreaming()` segment, inside `cleanupBrowser()` at each
issued `detach`/`close`, after the `cleanupBrowser()` promise resolves
(`launchCall` then runs `puppeteer.launch(...)` and suspends), and after
each engine call of the acquisition sequence resolves (the `...Resume`
segments run the assignment the source performs with the resolved value
and then issue the next call). -/
inductive StartPC
  | validate
  | cleanupEntry
  | cleanupAfterDetach
  | cleanupAfterClosePage
  | cleanupAfterCloseBrowser
  | launchCall
  | launchResume
  | newPageResume
  | cdpResume
  | viewportResume
  | gotoResume
  | finished
  | rejected
  deriving DecidableEq, Repr

/-- One in-flight `start-session` handler execution: its command payload,
its engine environment and its program counter. -/
structure StartTask where
  env : StartEnv
  url : Option String
  width : Option Int
  height : Option Int
  pc : StartPC
  deriving Repr

/-- One atomic segment of a `start-session` handler execution against the
shared connection state — the code the Node event loop runs between two
await points of the body.  Acquisition ops are recorded at the resume
step in which the source assigns the resolved handle to the closure
variable (the instant the handle is live and owned).  This replay covers
attempts whose engine calls all succeed, which the interleaving
counterexample uses; the failure paths are exercised by `startSession`. -/
def startStep (s : ConnState) (t : StartTask) :
    ConnState × List EngineOp × StartTask :=
  match t.pc with
  | StartPC.validate =>
      if jsFalsyStr t.url then (s, [], { t with pc := StartPC.rejected })
      else (stopStreaming s, [], { t with pc := StartPC.cleanupEntry })
  | StartPC.cleanupEntry =>
      match s.cdpClient with
      | some c => (s, [EngineOp.detach c], { t with pc := StartPC.cleanupAfterDetach })
      | none =>
        match s.page with
        | some p => (s, [EngineOp.closePage p], { t with pc := StartPC.cleanupAfterClosePage })
        | none =>
          match s.browser with
          | some b => (s, [EngineOp.closeBrowser b], { t with pc := StartPC.cleanupAfterCloseBrowser })
          | none => (s, [], { t with pc := StartPC.launchCall })
  | StartPC.cleanupAfterDetach =>
      let s1 := { s with cdpClient := none }
      match s1.page with
      | some p => (s1, [EngineOp.closePage p], { t with pc := StartPC.cleanupAfterClosePage })
      | none =>
        match s1.browser with
        | some b => (s1, [EngineOp.closeBrowser b], { t with pc := StartPC.cleanupAfterCloseBrowser })
        | none => (s1, [], { t with pc := StartPC.launchCall })
  | StartPC.cleanupAfterClosePage =>
      let s1 := { s with page := none }
      match s1.browser with
      | some b => (s1, [EngineOp.closeBrowser b], { t with pc := StartPC.cleanupAfterCloseBrowser })
      | none => (s1, [], { t with pc := StartPC.launchCall })
  | StartPC.cleanupAfterCloseBrowser =>
      ({ s with browser := none }, [], { t with pc := StartPC.launchCall })
  | StartPC.launchCall => (s, [], { t with pc := StartPC.launchResume })
  | StartPC.launchResume =>
      ({ s with browser := some t.env.browserId }, [EngineOp.launch t.env.browserId],
       { t with pc := StartPC.newPageResume })
  | StartPC.newPageResume =>
      ({ s with page := some t.env.pageId }, [EngineOp.newPage t.env.pageId],
       { t with pc := StartPC.cdpResume })
  | StartPC.cdpResume =>
      ({ s with cdpClient := some t.env.cdpId }, [EngineOp.createCDP t.env.cdpId],
       { t with pc := StartPC.viewportResume })
  | StartPC.viewportResume =>
      ({ s with viewport := some ⟨jsOr t.width DEFAULT_WIDTH, jsOr t.height DEFAULT_HEIGHT⟩ },
       [EngineOp.setViewport (jsOr t.width DEFAULT_WIDTH) (jsOr t.height DEFAULT_HEIGHT)],
       { t with pc := StartPC.gotoResume })
  | StartPC.gotoResume =>
      ({ s with streaming := true }, [EngineOp.goto (t.url.getD "")],
       { t with pc := StartPC.finished })
  | StartPC.finished => (s, [], t)
  | StartPC.rejected => (s, [], t)

/-- Interleave two in-flight `start-session` handler executions over the
shared connection state under an explicit schedule (`true` steps the
first task, `false` the second), as the Node event loop does when the
second command arrives while the first handler is suspended at an await.
Returns the final state, the engine-operation trace and both tasks. -/
def runTwoStarts : List Bool → ConnState → StartTask → StartTask →
    ConnState × List EngineOp × StartTask × StartTask
  | [], s, t1, t2 => (s, [], t1, t2)
  | pick :: sched, s, t1, t2 =>
    if pick then
      let r := startStep s t1
      let rest := runTwoStarts sched r.1 r.2.2 t2
      (rest.1, r.2.1 ++ rest.2.1, rest.2.2)
    else
      let r := startStep s t2
      let rest := runTwoStarts sched r.1 t1 r.2.2
      (rest.1, r.2.1 ++ rest.2.1, rest.2.2)

/-- The first `start-session` command of the overlap scenario. -/
def taskA : StartTask :=
  { env := { browserId := 1, pageId := 3, cdpId := 5, launchOk := true,
             launchErr := "", gotoOk := true, gotoErr := "" },
    url := some "https://a.example", width := none, height := none,
    pc := StartPC.validate }

/-- The second `start-session` command of the overlap scenario, arriving
while the first handler is suspended at `await puppeteer.launch`. -/
def taskB : StartTask :=
  { env := { browserId := 2, pageId := 4, cdpId := 6, launchOk := true,
             launchErr := "", gotoOk := true, gotoErr := "" },
    url := some "https://b.example", width := none, height := none,
    pc := StartPC.validate }

/-- The schedule of the overlap scenario: the first handler runs up to its
`puppeteer.launch` call and suspends; the second command is dispatched,
its `cleanupBrowser` sees every handle still `null` (the first handler has
not assigned `browser` yet) and releases nothing, and it too calls
`puppeteer.launch`; then both launches resolve and both handlers run to
completion. -/
def overlapSchedule : List Bool :=
  [true, true, true, false, false, false, true, false,
   true, true, true, true, false, false, false, false]

/-- C1 counterexample: two `start-session` commands on one connection,
the second arriving while the first is suspended at
`await puppeteer.launch`.  Both handlers run to completion, yet the
engine-operation trace ends with two browser handles alive at once — the
claimed bound of at most one alive handle at any instant is violated —
and the first browser is never closed (its handle was overwritten, and no
`cleanupBrowser` ever saw it): the overlap and leak the claim excludes. -/
theorem concurrent_starts_overlap_cex :
    (runTwoStarts overlapSchedule initialConn taskA taskB).2.2.1.pc = StartPC.finished ∧
    (runTwoStarts overlapSchedule initialConn taskA taskB).2.2.2.pc = StartPC.finished ∧
    (aliveAfter [] (runTwoStarts overlapSchedule initialConn taskA taskB).2.1).length = 2 ∧
    ¬ (aliveAfter [] (runTwoStarts overlapSchedule initialConn taskA taskB).2.1).length ≤ 1 ∧
    EngineOp.closeBrowser 1 ∉ (runTwoStarts overlapSchedule initialConn taskA taskB).2.1 := by
  refine ⟨by decide, by decide, by decide, by decide, by decide⟩

/-- Program counter of one in-flight destroy-body execution — the
`await stopStreaming(); await cleanupBrowser();` body that the dispatcher
registers on both `disconnect` (src/server.js:263-267) and socket `error`
(src/server.js:270-274), cut at its await points exactly as in
`startStep`. -/
inductive DestroyPC
  | invoke
  | cleanup
  | afterDetach
  | afterClosePage
  | afterCloseBrowser
  | finished
  deriving DecidableEq, Repr

/-- One atomic segment of a destroy-body execution: `invoke` runs the
`stopStreaming` body and suspends; `cleanup` runs the `cleanupBrowser`
null-check cascade up to the first issued release (or through to the end
when every handle is already `null`); each `after...` segment runs the
null assignment the source performs after the awaited release resolves
and issues the next release. -/
def destroyStep (s : ConnState) (pc : DestroyPC) :
    ConnState × List EngineOp × DestroyPC :=
  match pc with
  | DestroyPC.invoke => (stopStreaming s, [], DestroyPC.cleanup)
  | DestroyPC.cleanup =>
      match s.cdpClient with
      | some c => (s, [EngineOp.detach c], DestroyPC.afterDetach)
      | none =>
        match s.page with
        | some p => (s, [EngineOp.closePage p], DestroyPC.afterClosePage)
        | none =>
          match s.browser with
          | some b => (s, [EngineOp.closeBrowser b], DestroyPC.afterCloseBrowser)
          | none => (s, [], DestroyPC.finished)
  | DestroyPC.afterDetach =>
      let s1 := { s with cdpClient := none }
      match s1.page with
      | some p => (s1, [EngineOp.closePage p], DestroyPC.afterClosePage)
      | none =>
        match s1.browser with
        | some b => (s1, [EngineOp.closeBrowser b], DestroyPC.afterCloseBrowser)
        | none => (s1, [], DestroyPC.finished)
  | DestroyPC.afterClosePage =>
      let s1 := { s with page := none }
      match s1.browser with
      | some b => (s1, [EngineOp.closeBrowser b], DestroyPC.afterCloseBrowser)
      | none => (s1, [], DestroyPC.finished)
  | DestroyPC.afterCloseBrowser =>
      ({ s with browser := none }, [], DestroyPC.finished)
  | DestroyPC.finished => (s, [], DestroyPC.finished)

/-- Interleave the two destroy-body executions spawned when both a channel
close and a channel-level error fire on one connection, under an explicit
schedule (`true` steps the first body, `false` the second).  Returns the
final state, the engine-operation trace and both program counters. -/
def runTwoDestroys : List Bool → ConnState → DestroyPC → DestroyPC →
    ConnState × List EngineOp × DestroyPC × DestroyPC
  | [], s, p1, p2 => (s, [], p1, p2)
  | pick :: sched, s, p1, p2 =>
    if pick then
      let r := destroyStep s p1
      let rest := runTwoDestroys sched r.1 r.2.2 p2
      (rest.1, r.2.1 ++ rest.2.1, rest.2.2)
    else
      let r := destroyStep s p2
      let rest := runTwoDestroys sched r.1 p1 r.2.2
      (rest.1, r.2.1 ++ rest.2.1, rest.2.2)

/-- What a destroy body at a given program counter has already made true
of the shared state.  Every destroy segment only clears fields (never
re-arms streaming, never re-assigns a handle), so these facts are stable
under the other body's steps as well. -/
def pcInv (s : ConnState) : DestroyPC → Prop
  | DestroyPC.invoke => True
  | DestroyPC.cleanup => s.streaming = false
  | DestroyPC.afterDetach => s.streaming = false
  | DestroyPC.afterClosePage => s.streaming = false ∧ s.cdpClient = none
  | DestroyPC.afterCloseBrowser =>
      s.streaming = false ∧ s.cdpClient = none ∧ s.page = none
  | DestroyPC.finished =>
      s.streaming = false ∧ s.cdpClient = none ∧ s.page = none ∧ s.browser = none

theorem destroyStep_keeps_cleared (s : ConnState) (pc : DestroyPC) :
    (s.streaming = false → (destroyStep s pc).1.streaming = false) ∧
    (s.cdpClient = none → (destroyStep s pc).1.cdpClient = none) ∧
    (s.page = none → (destroyStep s pc).1.page = none) ∧
    (s.browser = none → (destroyStep s pc).1.browser = none) := by
  rcases s with ⟨b, p, c, st, sto, sc, v⟩
  cases pc <;> cases b <;> cases p <;> cases c <;>
    simp [destroyStep, stopStreaming]

theorem destroyStep_inv_self (s : ConnState) (pc : DestroyPC)
    (h : pcInv s pc) : pcInv (destroyStep s pc).1 (destroyStep s pc).2.2 := by
  rcases s with ⟨b, p, c, st, sto, sc, v⟩
  cases pc <;> cases b <;> cases p <;> cases c <;>
    simp_all [destroyStep, stopStreaming, pcInv]

theorem destroyStep_inv_other (s : ConnState) (pcA pcB : DestroyPC)
    (h : pcInv s pcB) : pcInv (destroyStep s pcA).1 pcB := by
  obtain ⟨h1, h2, h3, h4⟩ := destroyStep_keeps_cleared s pcA
  cases pcB with
  | invoke => trivial
  | cleanup => exact h1 h
  | afterDetach => exact h1 h
  | afterClosePage => exact ⟨h1 h.1, h2 h.2⟩
  | afterCloseBrowser => exact ⟨h1 h.1, h2 h.2.1, h3 h.2.2⟩
  | finished => exact ⟨h1 h.1, h2 h.2.1, h3 h.2.2.1, h4 h.2.2.2⟩

theorem runTwoDestroys_inv (sched : List Bool) (s : ConnState)
    (p1 p2 : DestroyPC) (h1 : pcInv s p1) (h2 : pcInv s p2) :
    pcInv (runTwoDestroys sched s p1 p2).1 (runTwoDestroys sched s p1 p2).2.2.1 ∧
    pcInv (runTwoDestroys sched s p1 p2).1 (runTwoDestroys sched s p1 p2).2.2.2 := by
  induction sched generalizing s p1 p2 with
  | nil => exact ⟨h1, h2⟩
  | cons pick sched ih =>
    cases pick with
    | true =>
      have ha := destroyStep_inv_self s p1 h1
      have hb := destroyStep_inv_other s p1 p2 h2
      simpa [runTwoDestroys] using
        ih (destroyStep s p1).1 (destroyStep s p1).2.2 p2 ha hb
    | false =>
      have ha := destroyStep_inv_other s p2 p1 h1
      have hb := destroyStep_inv_self s p2 h2
      simpa [runTwoDestroys] using
        ih (destroyStep s p2).1 p1 (destroyStep s p2).2.2 ha hb

/-- The race schedule: both destroy bodies fire together and alternate at
every await, so each null check runs before the other body's null
assignment lands. -/
def destroyRaceSchedule : List Bool :=
  [true, false, true, false, true, false, true, false, true, false]

/-- C9 counterexample: when both a close and a channel-level error fire on
one connection, the destroy body is invoked once per firing — both
executions here run to completion — and, with the two bodies interleaved
at their awaits, each passes its null checks before the other nulls the
handles, so every release is issued twice (two detaches of the same CDP
session, two closes of the same page and browser).  The destroy is not
invoked exactly once and nothing guards against the double-destroy. -/
theorem destroy_double_release_cex :
    ((runTwoDestroys destroyRaceSchedule streamingConn
        DestroyPC.invoke DestroyPC.invoke).2.1).count (EngineOp.detach 2) = 2 ∧
    ((runTwoDestroys destroyRaceSchedule streamingConn
        DestroyPC.invoke DestroyPC.invoke).2.1).count (EngineOp.closePage 1) = 2 ∧
    ((runTwoDestroys destroyRaceSchedule streamingConn
        DestroyPC.invoke DestroyPC.invoke).2.1).count (EngineOp.closeBrowser 0) = 2 ∧
    (runTwoDestroys destroyRaceSchedule streamingConn
        DestroyPC.invoke DestroyPC.invoke).2.2.1 = DestroyPC.finished ∧
    (runTwoDestroys destroyRaceSchedule streamingConn
        DestroyPC.invoke DestroyPC.invoke).2.2.2 = DestroyPC.finished := by
  refine ⟨by decide, by decide, by decide, by decide, by decide⟩

/-- C9 (amended): when both a channel close and a channel-level error fire,
the destroy body runs once per firing — twice, with no double-destroy
guard — and when the bodies interleave at their awaits they may issue
duplicate best-effort detach/close calls, whose failures the source
swallows.  Still, under every interleaving, whenever either body has run
to completion the session is destroyed: streaming stopped and all engine
handles `null`. -/
theorem double_destroy_completes (sched : List Bool) (s : ConnState)
    (h : (runTwoDestroys sched s DestroyPC.invoke DestroyPC.invoke).2.2.1 =
      DestroyPC.finished) :
    (runTwoDestroys sched s DestroyPC.invoke DestroyPC.invoke).1.streaming = false ∧
    (runTwoDestroys sched s DestroyPC.invoke DestroyPC.invoke).1.cdpClient = none ∧
    (runTwoDestroys sched s DestroyPC.invoke DestroyPC.invoke).1.page = none ∧
    (runTwoDestroys sched s DestroyPC.invoke DestroyPC.invoke).1.browser = none := by
  have hinv := (runTwoDestroys_inv sched s DestroyPC.invoke DestroyPC.invoke
    trivial trivial).1
  rw [h] at hinv
  exact hinv

theorem double_destroy_completes_witness :
    (runTwoDestroys [true, true, true, true, true] streamingConn
      DestroyPC.invoke DestroyPC.invoke).2.2.1 = DestroyPC.finished ∧
    ((runTwoDestroys [true, true, true, true, true] streamingConn
        DestroyPC.invoke DestroyPC.invoke).1.streaming = false ∧
     (runTwoDestroys [true, true, true, true, true] streamingConn
        DestroyPC.invoke DestroyPC.invoke).1.cdpClient = none ∧
     (runTwoDestroys [true, true, true, true, true] streamingConn
        DestroyPC.invoke DestroyPC.invoke).1.page = none ∧
     (runTwoDestroys [true, true, true, true, true] streamingConn
        DestroyPC.invoke DestroyPC.invoke).1.browser = none) :=
  ⟨by decide,
   double_destroy_completes [true, true, true, true, true] streamingConn (by decide)⟩
